import Mathlib

/-!
Shallow embedding of the checkout / coupon / order pipeline of `src/app.py`
(a Flask storefront for OTT subscription plans).

Modelling conventions:
* Database tables (`plans`, `coupons`, `orders`) become lists of records; the
  SQLite `AUTOINCREMENT` order id becomes an explicit `nextOrderId` counter.
* The Flask session becomes an explicit `Session` record holding the keys
  `user` and `coupon_code` that the pipeline reads and writes.
* Timestamps (ISO strings parsed with `datetime.fromisoformat`, and values of
  `datetime.utcnow()`) are abstracted to integers with the chronological
  order; the global clock read `datetime.utcnow()` inside a handler is
  threaded as an explicit `now : Int` argument.
* The Stripe call in `create_checkout_session` is modelled by recording the
  unit amount the provider is asked to charge, plus a Boolean flag saying
  whether the provider was invoked at all.
* A raised Python exception is modelled by an explicit `raised` constructor
  carrying the (unchanged) database and session state at the raise point.
-/

/-- A row of the `plans` table (`id, name, price, logo`); the `logo` column is
presentation only and never read by the pipeline, so it is omitted. -/
structure Plan where
  id : Int
  name : String
  price : Int
deriving Repr, DecidableEq

/-- A row of the `coupons` table: `code TEXT PRIMARY KEY, type TEXT, amount
INTEGER, expires_at TEXT`.  `ctype` is the `type` column (the strings "flat"
or "percent"); `expires_at` is `none` for a NULL (or empty, hence falsy)
expiry. -/
structure Coupon where
  code : String
  ctype : String
  amount : Int
  expires_at : Option Int
deriving Repr, DecidableEq

/-- A row of the `orders` table: `id, user_email, plan_id, plan_name, amount,
coupon_code, created_at`. -/
structure OrderRow where
  id : Int
  user_email : Option String
  plan_id : Int
  plan_name : String
  amount : Int
  coupon_code : Option String
  created_at : Int
deriving Repr, DecidableEq

/-- The SQLite database state visible to the pipeline. -/
structure DB where
  plans : List Plan
  coupons : List Coupon
  orders : List OrderRow
  nextOrderId : Int
deriving Repr, DecidableEq

/-- The Flask session keys read and written by the pipeline:
`session["user"]` and `session["coupon_code"]`. -/
structure Session where
  user : Option String
  coupon_code : Option String
deriving Repr, DecidableEq

/-- ASCII uppercasing of a single character, as Python `str.upper` acts on
the ASCII coupon codes involved. -/
def upChar (c : Char) : Char :=
  if 'a' ≤ c ∧ c ≤ 'z' then Char.ofNat (c.toNat - 32) else c

/-- Python `str.upper` restricted to the ASCII fragment the application
uses. -/
def pyUpper (s : String) : String :=
  String.mk (s.data.map upChar)

/-- Python `str.strip` with no argument: remove leading and trailing
whitespace. -/
def pyStrip (s : String) : String :=
  String.mk
    (((s.data.dropWhile Char.isWhitespace).reverse.dropWhile
      Char.isWhitespace).reverse)

/-- `get_plan(plan_id)`: `SELECT * FROM plans WHERE id=?`, first row or None. -/
def get_plan (db : DB) (plan_id : Int) : Option Plan :=
  db.plans.find? (fun p => p.id == plan_id)

/-- `SELECT * FROM coupons WHERE code=?` (exact, case-sensitive TEXT match),
first row or None. -/
def findCoupon (db : DB) (code : String) : Option Coupon :=
  db.coupons.find? (fun c => c.code == code)

/-- The second component returned by `apply_coupon_to_amount`: Python returns
the strings "INVALID" / "EXPIRED" or None. -/
inductive CouponError where
  | INVALID
  | EXPIRED
deriving Repr, DecidableEq

/-- The expiry test of `apply_coupon_to_amount` lines 171-174: skipped when
`expires_at` is falsy, otherwise `datetime.utcnow() > expires`. -/
def isExpired (c : Coupon) (now : Int) : Bool :=
  match c.expires_at with
  | none => false
  | some e => now > e

/-- `apply_coupon_to_amount(code, amount)` of `src/app.py` lines 160-179.
The clock read `datetime.utcnow()` at line 173 is passed in as `now`.
Python truthiness: `if not code` catches both None and the empty string.
The lookup key is `code.upper()` (line 165): uppercased, NOT trimmed.
The percent branch `int(amount * (100 - coupon["amount"]) / 100)` truncates
the exact quotient toward zero, i.e. `Int.tdiv` (exact-arithmetic idealisation
of the float division for the integer amounts involved). -/
def apply_coupon_to_amount (db : DB) (code : Option String) (amount : Int)
    (now : Int) : Int × Option CouponError :=
  match code with
  | none => (amount, none)
  | some s =>
    if s = "" then (amount, none)
    else
      match findCoupon db (pyUpper s) with
      | none => (amount, some CouponError.INVALID)
      | some coupon =>
        if isExpired coupon now then (amount, some CouponError.EXPIRED)
        else if coupon.ctype = "flat" then (max 0 (amount - coupon.amount), none)
        else (max 0 (Int.tdiv (amount * (100 - coupon.amount)) 100), none)

/-- Outcome of the `/create-checkout-session/<plan_id>` route: either the 404
"Invalid plan" response, or a 303 redirect to a provider session created with
the given `unit_amount` (minor units, `final_amount * 100`) for the plan. -/
inductive CheckoutResult where
  | invalidPlan
  | redirect (unit_amount : Int) (plan_id : Int)
deriving Repr, DecidableEq

/-- Full observable outcome of `create_checkout_session`: the HTTP result,
the session state afterwards, and whether `stripe.checkout.Session.create`
was invoked. -/
structure CheckoutOutcome where
  result : CheckoutResult
  sess : Session
  providerCalled : Bool
deriving Repr, DecidableEq

/-- `create_checkout_session(plan_id)` of `src/app.py` lines 205-237.
Unknown plan: return "Invalid plan" 404; no provider call.  Otherwise apply
the session coupon to the plan price; on INVALID/EXPIRED pop the coupon from
the session and fall back to the base price; call Stripe with
`final_amount * 100`. -/
def create_checkout_session (db : DB) (sess : Session) (plan_id : Int)
    (now : Int) : CheckoutOutcome :=
  match get_plan db plan_id with
  | none => ⟨CheckoutResult.invalidPlan, sess, false⟩
  | some p =>
    let amount := p.price
    let fc := apply_coupon_to_amount db sess.coupon_code amount now
    match fc.2 with
    | some _ =>
      ⟨CheckoutResult.redirect (amount * 100) p.id,
        { sess with coupon_code := none }, true⟩
    | none => ⟨CheckoutResult.redirect (fc.1 * 100) p.id, sess, true⟩

/-- The only exception the `/success` handler can raise in the modelled
fragment: `int(plan_id)` raising ValueError at line 243. -/
inductive SuccessError where
  | valueError
deriving Repr, DecidableEq

/-- Result of the `/success` handler.  `raised` carries the database and
session exactly as they were when the exception escaped (nothing had been
written yet, and `session.pop("coupon_code", None)` was never reached). -/
inductive SuccessResult where
  | raised (err : SuccessError) (db : DB) (sess : Session)
  | ok (db : DB) (sess : Session) (order_id : Option Int)
deriving Repr, DecidableEq

/-- Value of a list of decimal digit characters. -/
def digitsVal (l : List Char) : Nat :=
  l.foldl (fun a c => 10 * a + (c.toNat - 48)) 0

/-- Model of the Python builtin `int` on a string: surrounding whitespace is
ignored, an optional sign precedes decimal digits; anything else raises
ValueError (here: `none`). -/
def pyInt? (s : String) : Option Int :=
  match (s.data.dropWhile Char.isWhitespace).reverse.dropWhile Char.isWhitespace
      |>.reverse with
  | [] => none
  | c :: cs =>
    if c = '-' then
      if cs ≠ [] ∧ cs.all Char.isDigit then some (-(digitsVal cs : Int)) else none
    else if c = '+' then
      if cs ≠ [] ∧ cs.all Char.isDigit then some (digitsVal cs : Int) else none
    else if (c :: cs).all Char.isDigit then some (digitsVal (c :: cs) : Int)
    else none

/-- The `/success` handler of `src/app.py` lines 240-263.  `planArg` is
`request.args.get("plan")` (None when absent).  Python truthiness at line
243: an empty string is falsy, so `plan` stays None without parsing.  When a
plan row is found, an order is inserted whose `amount` is `plan["price"]`
(the current catalog price) and whose `coupon_code` is the session coupon;
afterwards the session coupon is popped unconditionally. -/
def success (db : DB) (sess : Session) (planArg : Option String)
    (now : Int) : SuccessResult :=
  let planParse : Except SuccessError (Option Plan) :=
    match planArg with
    | none => Except.ok none
    | some s =>
      if s = "" then Except.ok none
      else
        match pyInt? s with
        | none => Except.error SuccessError.valueError
        | some pid => Except.ok (get_plan db pid)
  match planParse with
  | Except.error e => SuccessResult.raised e db sess
  | Except.ok plan =>
    match plan with
    | some p =>
      let oid := db.nextOrderId
      let o : OrderRow :=
        ⟨oid, sess.user, p.id, p.name, p.price, sess.coupon_code, now⟩
      SuccessResult.ok
        { db with orders := db.orders ++ [o], nextOrderId := oid + 1 }
        { sess with coupon_code := none }
        (some oid)
    | none => SuccessResult.ok db { sess with coupon_code := none } none

/-- First seeded plan of `seed_plans`. -/
def samplePlan : Plan := ⟨1, "Netflix Standard", 199⟩

/-- A flat coupon of 50 with no expiry, as in spec section 8. -/
def save50 : Coupon := ⟨"SAVE50", "flat", 50, none⟩

def dbC1 : DB := ⟨[samplePlan], [save50], [], 1⟩

def sessC1 : Session := ⟨some "u@example.com", some "SAVE50"⟩

/-- Shared description of a `/success` run that finds the plan: the handler
appends exactly one order row, whose `amount` is the plan's current `price`
and whose `coupon_code` is the session coupon, takes the next autoincrement
id, and pops the session coupon. -/
theorem success_found (db : DB) (sess : Session) (s : String) (pid : Int)
    (p : Plan) (now : Int) (hne : ¬ s = "") (hparse : pyInt? s = some pid)
    (hplan : get_plan db pid = some p) :
    success db sess (some s) now =
      SuccessResult.ok
        { db with
            orders := db.orders ++
              [⟨db.nextOrderId, sess.user, p.id, p.name, p.price,
                sess.coupon_code, now⟩],
            nextOrderId := db.nextOrderId + 1 }
        { sess with coupon_code := none } (some db.nextOrderId) := by
  simp [success, hne, hparse, hplan]

/-- C1: the spec claims that an order recorded by `/success` while a coupon
was in effect has `amount` equal to the discounted provider-charged amount,
never the raw plan price.  False on the code: with plan 1 (price 199) and
flat coupon SAVE50 applied in the session, checkout charges the provider
149 * 100 minor units, yet the recorded order's `amount` is the raw plan
price 199 (line 253 inserts `plan["price"]`). -/
theorem C1_counterexample :
    (create_checkout_session dbC1 sessC1 1 0).result =
      CheckoutResult.redirect (149 * 100) 1 ∧
    success dbC1 sessC1 (some "1") 0 =
      SuccessResult.ok
        ⟨[samplePlan], [save50],
          [⟨1, some "u@example.com", 1, "Netflix Standard", 199,
            some "SAVE50", 0⟩], 2⟩
        ⟨some "u@example.com", none⟩ (some 1) ∧
    (199 : Int) ≠ 149 := by
  exact ⟨by decide, by decide, by decide⟩

/-- C1 amended: every order recorded by `/success` has `amount` equal to the
plan's current catalog price (`plan["price"]`), even when a coupon code was
in effect in the session (the coupon code itself is snapshotted into the
row, but the discounted charged amount is not what is recorded). -/
theorem C1_amended_order_amount_is_raw_price (db : DB) (sess : Session)
    (s : String) (pid : Int) (p : Plan) (now : Int) (hne : ¬ s = "")
    (hparse : pyInt? s = some pid) (hplan : get_plan db pid = some p) :
    success db sess (some s) now =
      SuccessResult.ok
        { db with
            orders := db.orders ++
              [⟨db.nextOrderId, sess.user, p.id, p.name, p.price,
                sess.coupon_code, now⟩],
            nextOrderId := db.nextOrderId + 1 }
        { sess with coupon_code := none } (some db.nextOrderId) :=
  success_found db sess s pid p now hne hparse hplan

/-- C1 amended, witness at the concrete fixture. -/
theorem C1_amended_witness :
    success dbC1 sessC1 (some "1") 0 =
      SuccessResult.ok
        { dbC1 with
            orders := dbC1.orders ++
              [⟨dbC1.nextOrderId, sessC1.user, samplePlan.id, samplePlan.name,
                samplePlan.price, sessC1.coupon_code, 0⟩],
            nextOrderId := dbC1.nextOrderId + 1 }
        { sessC1 with coupon_code := none } (some dbC1.nextOrderId) :=
  C1_amended_order_amount_is_raw_price dbC1 sessC1 "1" 1 samplePlan 0
    (by decide) (by decide) (by decide)

/-- A flat coupon of 10 that expires at time 5. -/
def couponX : Coupon := ⟨"X", "flat", 10, some 5⟩

def dbC2 : DB := ⟨[], [couponX], [], 1⟩

/-- C2: the spec claims the coupon evaluator reads no hidden global time
source inside itself, so that two calls with identical explicit inputs
return identical results.  False on the code: `apply_coupon_to_amount` calls
`datetime.utcnow()` at line 173, so with the same stored coupons and the
same explicit arguments (code "X", base amount 100) the result changes from
(90, None) to (100, "EXPIRED") as the internal clock passes the expiry. -/
theorem C2_counterexample :
    apply_coupon_to_amount dbC2 (some "X") 100 0 = (90, none) ∧
    apply_coupon_to_amount dbC2 (some "X") 100 10 =
      (100, some CouponError.EXPIRED) ∧
    apply_coupon_to_amount dbC2 (some "X") 100 0 ≠
      apply_coupon_to_amount dbC2 (some "X") 100 10 := by
  exact ⟨by decide, by decide, by decide⟩

/-- C2 amended: the evaluator does read the clock internally; once that read
is modelled as an explicit `now` argument, the result depends on time only
through the expiry tests of the stored coupons: whenever every stored
coupon's expiry test agrees at two instants, the evaluator returns identical
results at those instants (for any code and base amount). -/
theorem C2_amended_deterministic_given_now (db : DB) (code : Option String)
    (amount : Int) (t₁ t₂ : Int)
    (h : ∀ c ∈ db.coupons, isExpired c t₁ = isExpired c t₂) :
    apply_coupon_to_amount db code amount t₁ =
      apply_coupon_to_amount db code amount t₂ := by
  cases code with
  | none => rfl
  | some s =>
    unfold apply_coupon_to_amount
    by_cases hs : s = ""
    · simp [hs]
    · simp only [if_neg hs]
      cases hfind : findCoupon db (pyUpper s) with
      | none => rfl
      | some c =>
        have hmem : c ∈ db.coupons :=
          List.mem_of_find?_eq_some (by simpa [findCoupon] using hfind)
        dsimp only
        rw [h c hmem]

/-- C2 amended, witness: at two instants both before the expiry of the only
stored coupon, the evaluator agrees. -/
theorem C2_amended_witness :
    apply_coupon_to_amount dbC2 (some "X") 100 3 =
      apply_coupon_to_amount dbC2 (some "X") 100 4 :=
  C2_amended_deterministic_given_now dbC2 (some "X") 100 3 4 (by decide)

/-- Shared shape of the percent branch of `apply_coupon_to_amount`: a found,
unexpired coupon whose `type` is "percent" yields
`max 0 (tdiv (amount * (100 - percent)) 100)` with no error. -/
theorem apply_coupon_percent_shape (db : DB) (s : String) (amount : Int)
    (now : Int) (c : Coupon) (hne : ¬ s = "")
    (hfind : findCoupon db (pyUpper s) = some c) (htype : c.ctype = "percent")
    (hexp : isExpired c now = false) :
    apply_coupon_to_amount db (some s) amount now =
      (max 0 (Int.tdiv (amount * (100 - c.amount)) 100), none) := by
  unfold apply_coupon_to_amount
  simp [hne, hfind, hexp, htype]

/-- C3: for base amount ≥ 0 and a found, unexpired Percent coupon, the
evaluator returns floor(amount * (100 - percent) / 100) when the percent is
in [0, 100], a value that is ≥ 0 and ≤ the base amount; a percent above 100
yields 0. -/
theorem C3_percent_coupon (db : DB) (s : String) (amount : Int) (now : Int)
    (c : Coupon) (hne : ¬ s = "") (hfind : findCoupon db (pyUpper s) = some c)
    (htype : c.ctype = "percent") (hexp : isExpired c now = false)
    (hamt : 0 ≤ amount) :
    (0 ≤ c.amount → c.amount ≤ 100 →
      apply_coupon_to_amount db (some s) amount now =
        (Int.fdiv (amount * (100 - c.amount)) 100, none) ∧
      0 ≤ Int.fdiv (amount * (100 - c.amount)) 100 ∧
      Int.fdiv (amount * (100 - c.amount)) 100 ≤ amount) ∧
    (100 < c.amount →
      apply_coupon_to_amount db (some s) amount now = (0, none)) := by
  have hshape := apply_coupon_percent_shape db s amount now c hne hfind htype hexp
  constructor
  · intro h0 h100
    have hnum : 0 ≤ amount * (100 - c.amount) :=
      mul_nonneg hamt (by omega)
    have h100pos : (0:Int) < 100 := by norm_num
    have htd : Int.tdiv (amount * (100 - c.amount)) 100 =
        amount * (100 - c.amount) / 100 :=
      Int.tdiv_eq_ediv hnum (by norm_num)
    have hfd : Int.fdiv (amount * (100 - c.amount)) 100 =
        amount * (100 - c.amount) / 100 :=
      Int.fdiv_eq_ediv _ (by norm_num)
    have hdnn : 0 ≤ amount * (100 - c.amount) / 100 :=
      Int.ediv_nonneg hnum (by norm_num)
    have hble : amount * (100 - c.amount) / 100 ≤ amount := by
      have hm : amount * (100 - c.amount) ≤ amount * 100 :=
        mul_le_mul_of_nonneg_left (by omega) hamt
      have := Int.ediv_le_ediv h100pos hm
      simpa [Int.mul_ediv_cancel amount (by norm_num : (100:Int) ≠ 0)]
        using this
    refine ⟨?_, ?_, ?_⟩
    · rw [hshape, htd, hfd, max_eq_right hdnn]
    · rw [hfd]; exact hdnn
    · rw [hfd]; exact hble
  · intro h100
    have hnum : amount * (100 - c.amount) ≤ 0 :=
      Int.mul_nonpos_of_nonneg_of_nonpos hamt (by omega)
    have htle : Int.tdiv (amount * (100 - c.amount)) 100 ≤ 0 := by
      have hneg : (0:Int) ≤ -(amount * (100 - c.amount)) := by omega
      have hpos : 0 ≤ Int.tdiv (-(amount * (100 - c.amount))) 100 :=
        Int.tdiv_nonneg hneg (by norm_num)
      have := Int.neg_tdiv (amount * (100 - c.amount)) 100
      omega
    rw [hshape, max_eq_left htle]

/-- A percent coupon of 10 percent with no expiry. -/
def pc10 : Coupon := ⟨"PC10", "percent", 10, none⟩

/-- A percent coupon of 150 percent with no expiry. -/
def pc150 : Coupon := ⟨"PC150", "percent", 150, none⟩

def dbC3 : DB := ⟨[], [pc10, pc150], [], 1⟩

/-- C3, witness: 10 percent off 199 is floor(199 * 90 / 100) = 179. -/
theorem C3_percent_coupon_witness :
    ((0 ≤ pc10.amount → pc10.amount ≤ 100 →
      apply_coupon_to_amount dbC3 (some "PC10") 199 0 =
        (Int.fdiv (199 * (100 - pc10.amount)) 100, none) ∧
      0 ≤ Int.fdiv (199 * (100 - pc10.amount)) 100 ∧
      Int.fdiv (199 * (100 - pc10.amount)) 100 ≤ 199) ∧
    (100 < pc10.amount →
      apply_coupon_to_amount dbC3 (some "PC10") 199 0 = (0, none))) ∧
    apply_coupon_to_amount dbC3 (some "PC10") 199 0 = (179, none) ∧
    apply_coupon_to_amount dbC3 (some "PC150") 199 0 = (0, none) :=
  ⟨C3_percent_coupon dbC3 "PC10" 199 0 pc10 (by decide) (by decide)
    (by decide) (by decide) (by decide), by decide, by decide⟩

/-- C4: for base amount ≥ 0 and a found, unexpired Flat coupon with a
nonnegative flat amount, the evaluator returns max(0, amount - flat) with no
error; in particular the result is never negative. -/
theorem C4_flat_coupon (db : DB) (s : String) (amount : Int) (now : Int)
    (c : Coupon) (hne : ¬ s = "") (hfind : findCoupon db (pyUpper s) = some c)
    (htype : c.ctype = "flat") (hexp : isExpired c now = false)
    (hamt : 0 ≤ amount) (hflat : 0 ≤ c.amount) :
    apply_coupon_to_amount db (some s) amount now =
      (max 0 (amount - c.amount), none) ∧
    0 ≤ (apply_coupon_to_amount db (some s) amount now).1 := by
  have hshape : apply_coupon_to_amount db (some s) amount now =
      (max 0 (amount - c.amount), none) := by
    unfold apply_coupon_to_amount
    simp [hne, hfind, hexp, htype]
  exact ⟨hshape, by rw [hshape]; exact le_max_left 0 (amount - c.amount)⟩

def dbC4 : DB := ⟨[], [save50], [], 1⟩

/-- C4, witness: flat 50 off 199 is max(0, 149) = 149, and it is ≥ 0. -/
theorem C4_flat_coupon_witness :
    (apply_coupon_to_amount dbC4 (some "SAVE50") 199 0 =
      (max 0 (199 - save50.amount), none) ∧
    0 ≤ (apply_coupon_to_amount dbC4 (some "SAVE50") 199 0).1) ∧
    apply_coupon_to_amount dbC4 (some "SAVE50") 199 0 = (149, none) :=
  ⟨C4_flat_coupon dbC4 "SAVE50" 199 0 save50 (by decide) (by decide)
    (by decide) (by decide) (by decide) (by decide), by decide⟩

def sessC5 : Session := ⟨none, some "SAVE50"⟩

/-- C5: the spec claims the session coupon is cleared after every `/success`
attempt, whether or not an order was persisted.  False on the code: a
request with the query parameter `plan=notanumber` makes `int(plan_id)` at
line 243 raise before `session.pop("coupon_code", None)` at line 262 is
reached, so the coupon "SAVE50" remains in the session after that attempt. -/
theorem C5_counterexample :
    success dbC1 sessC5 (some "notanumber") 0 =
      SuccessResult.raised SuccessError.valueError dbC1 sessC5 ∧
    sessC5.coupon_code = some "SAVE50" := by
  exact ⟨by decide, by decide⟩

/-- C5 amended: after every `/success` attempt in which the handler runs to
completion (the plan parameter is absent, empty, or parses as an integer),
the session coupon is cleared, whether or not an order was persisted; when
the plan parameter is present but non-numeric the handler raises first and
the coupon survives. -/
theorem C5_amended_coupon_cleared (db : DB) (sess : Session)
    (planArg : Option String) (now : Int) (db' : DB) (sess' : Session)
    (oid : Option Int)
    (h : success db sess planArg now = SuccessResult.ok db' sess' oid) :
    sess'.coupon_code = none := by
  unfold success at h
  cases planArg with
  | none =>
    dsimp only at h
    cases h
    rfl
  | some s =>
    dsimp only at h
    by_cases hs : s = ""
    · rw [if_pos hs] at h
      dsimp only at h
      cases h
      rfl
    · rw [if_neg hs] at h
      cases hp : pyInt? s with
      | none =>
        rw [hp] at h
        dsimp only at h
        exact SuccessResult.noConfusion h
      | some pid =>
        rw [hp] at h
        dsimp only at h
        cases hg : get_plan db pid with
        | none =>
          rw [hg] at h
          dsimp only at h
          cases h
          rfl
        | some p =>
          rw [hg] at h
          dsimp only at h
          cases h
          rfl

/-- C5 amended, witness: a `/success` attempt with no plan parameter, a
coupon in the session, and no order persisted still clears the coupon. -/
theorem C5_amended_witness :
    (Session.mk (none : Option String) (none : Option String)).coupon_code =
      none :=
  C5_amended_coupon_cleared dbC1 ⟨none, some "SAVE50"⟩ none 0 dbC1
    ⟨none, none⟩ none rfl

/-- C6: when the coupon evaluator reports INVALID or EXPIRED,
`create_checkout_session` pops the coupon from the session and still calls
the provider, charging the unmodified base plan price (`price * 100` minor
units); the bad coupon does not block checkout. -/
theorem C6_bad_coupon_degrades (db : DB) (sess : Session) (pid : Int)
    (p : Plan) (now : Int) (err : CouponError)
    (hplan : get_plan db pid = some p)
    (herr : (apply_coupon_to_amount db sess.coupon_code p.price now).2 =
      some err) :
    create_checkout_session db sess pid now =
      ⟨CheckoutResult.redirect (p.price * 100) p.id,
        { sess with coupon_code := none }, true⟩ := by
  unfold create_checkout_session
  rw [hplan]
  dsimp only
  rw [herr]

def sessC6 : Session := ⟨none, some "NOPE"⟩

/-- C6, witness: an unknown code "NOPE" is dropped from the session and plan
1 is charged at its full price 199. -/
theorem C6_witness :
    create_checkout_session dbC1 sessC6 1 0 =
      ⟨CheckoutResult.redirect (samplePlan.price * 100) samplePlan.id,
        { sessC6 with coupon_code := none }, true⟩ :=
  C6_bad_coupon_degrades dbC1 sessC6 1 samplePlan 0 CouponError.INVALID
    (by decide) (by decide)

def dbC7 : DB := ⟨[], [save50], [], 1⟩

/-- C7: the spec claims the evaluator looks the coupon up by the uppercased
AND trimmed code.  False on the code: line 165 uses `code.upper()` with no
strip, so for the input " save50 " the evaluator reports INVALID even though
a coupon whose code is the trimmed-and-uppercased form ("SAVE50") exists. -/
theorem C7_counterexample :
    apply_coupon_to_amount dbC7 (some " save50 ") 100 0 =
      (100, some CouponError.INVALID) ∧
    findCoupon dbC7 (pyUpper (pyStrip " save50 ")) = some save50 := by
  exact ⟨by decide, by decide⟩

/-- C7 amended: for every non-empty code, the evaluator looks the coupon up
by the uppercased (not trimmed) code, and returns (baseAmount, INVALID)
exactly when no coupon with that uppercased code exists. -/
theorem C7_amended_invalid_iff_unknown_uppercased (db : DB) (s : String)
    (amount : Int) (now : Int) (hne : ¬ s = "") :
    apply_coupon_to_amount db (some s) amount now =
        (amount, some CouponError.INVALID) ↔
      findCoupon db (pyUpper s) = none := by
  unfold apply_coupon_to_amount
  dsimp only
  rw [if_neg hne]
  cases hfind : findCoupon db (pyUpper s) with
  | none => simp
  | some c =>
    dsimp only
    constructor
    · intro h
      exfalso
      by_cases he : isExpired c now
      · rw [if_pos he] at h
        have hsnd := congrArg Prod.snd h
        simp at hsnd
      · rw [if_neg he] at h
        by_cases hf : c.ctype = "flat"
        · rw [if_pos hf] at h
          have hsnd := congrArg Prod.snd h
          simp at hsnd
        · rw [if_neg hf] at h
          have hsnd := congrArg Prod.snd h
          simp at hsnd
    · intro h
      simp at h

/-- C7 amended, witness at an unknown code. -/
theorem C7_amended_witness :
    apply_coupon_to_amount dbC7 (some "NOPE") 100 0 =
        (100, some CouponError.INVALID) ↔
      findCoupon dbC7 (pyUpper "NOPE") = none :=
  C7_amended_invalid_iff_unknown_uppercased dbC7 "NOPE" 100 0 (by decide)

/-- C8: for a plan id not in the catalog, `create_checkout_session` returns
the "Invalid plan" 404 result, leaves the session untouched, and never
invokes the payment provider. -/
theorem C8_invalid_plan_no_provider_call (db : DB) (sess : Session)
    (pid : Int) (now : Int) (hplan : get_plan db pid = none) :
    create_checkout_session db sess pid now =
      ⟨CheckoutResult.invalidPlan, sess, false⟩ := by
  unfold create_checkout_session
  rw [hplan]

/-- C8, witness: plan id 99 is not in the catalog. -/
theorem C8_witness :
    create_checkout_session dbC1 sessC1 99 0 =
      ⟨CheckoutResult.invalidPlan, sessC1, false⟩ :=
  C8_invalid_plan_no_provider_call dbC1 sessC1 99 0 (by decide)

/-- C9: two `/success` redirects for the same plan (for example a page
refresh) each insert a fresh order row: the two runs append two rows with
distinct autoincrement ids; nothing deduplicates them. -/
theorem C9_duplicate_redirect_two_orders (db : DB) (sess : Session)
    (s : String) (pid : Int) (p : Plan) (t₁ t₂ : Int) (db₁ db₂ : DB)
    (sess₁ sess₂ : Session) (o₁ o₂ : Int) (hne : ¬ s = "")
    (hparse : pyInt? s = some pid) (hplan : get_plan db pid = some p)
    (h₁ : success db sess (some s) t₁ = SuccessResult.ok db₁ sess₁ (some o₁))
    (h₂ : success db₁ sess₁ (some s) t₂ =
      SuccessResult.ok db₂ sess₂ (some o₂)) :
    o₁ ≠ o₂ ∧
    db₂.orders = db.orders ++
      [⟨o₁, sess.user, p.id, p.name, p.price, sess.coupon_code, t₁⟩,
       ⟨o₂, sess₁.user, p.id, p.name, p.price, sess₁.coupon_code, t₂⟩] ∧
    db₂.orders.length = db.orders.length + 2 := by
  have e₁ := success_found db sess s pid p t₁ hne hparse hplan
  rw [e₁] at h₁
  injection h₁ with hdb₁ hsess₁ hoid₁
  injection hoid₁ with ho₁
  subst hdb₁
  subst hsess₁
  subst ho₁
  have e₂ := success_found
    { db with
        orders := db.orders ++
          [⟨db.nextOrderId, sess.user, p.id, p.name, p.price,
            sess.coupon_code, t₁⟩],
        nextOrderId := db.nextOrderId + 1 }
    { sess with coupon_code := none } s pid p t₂ hne hparse hplan
  rw [e₂] at h₂
  injection h₂ with hdb₂ hsess₂ hoid₂
  injection hoid₂ with ho₂
  subst hdb₂
  subst hsess₂
  subst ho₂
  refine ⟨by dsimp only; omega, by simp, by simp⟩

def dbC9a : DB :=
  ⟨[samplePlan], [save50],
    [⟨1, some "u@example.com", 1, "Netflix Standard", 199, some "SAVE50", 0⟩],
    2⟩

def dbC9b : DB :=
  ⟨[samplePlan], [save50],
    [⟨1, some "u@example.com", 1, "Netflix Standard", 199, some "SAVE50", 0⟩,
     ⟨2, some "u@example.com", 1, "Netflix Standard", 199, none, 7⟩], 3⟩

def sessC9 : Session := ⟨some "u@example.com", none⟩

/-- C9, witness: refreshing `/success?plan=1` inserts order rows 1 and 2. -/
theorem C9_witness :
    (1 : Int) ≠ 2 ∧
    dbC9b.orders = dbC1.orders ++
      [⟨1, sessC1.user, samplePlan.id, samplePlan.name, samplePlan.price,
        sessC1.coupon_code, 0⟩,
       ⟨2, sessC9.user, samplePlan.id, samplePlan.name, samplePlan.price,
        sessC9.coupon_code, 7⟩] ∧
    dbC9b.orders.length = dbC1.orders.length + 2 :=
  C9_duplicate_redirect_two_orders dbC1 sessC1 "1" 1 samplePlan 0 7
    dbC9a dbC9b sessC9 sessC9 1 2 (by decide) (by decide) (by decide)
    (by decide) (by decide)

def dbC10 : DB := ⟨[samplePlan], [], [], 1⟩

def sessC10 : Session := ⟨some "u@example.com", none⟩

/-- C10: a `/success` request whose `plan` query parameter is present but
not a decimal integer string makes `int(plan_id)` at line 243 raise an
uncaught ValueError: the handler aborts with the database and session
unchanged (`dbC10` still has no orders) instead of taking the documented
"no order" path. -/
theorem C10_nonnumeric_plan_raises :
    pyInt? "abc" = none ∧
    success dbC10 sessC10 (some "abc") 0 =
      SuccessResult.raised SuccessError.valueError dbC10 sessC10 ∧
    dbC10.orders = [] := by
  exact ⟨by decide, by decide, by decide⟩
